import Mathlib

/-!
Verification of the OEE dashboard's computational core against its design
specification.  The embedding below translates the two core source modules
(`src/utils/calculations.py` and `src/utils/data_processing.py`) into Lean:
numeric cell values are modelled as exact rationals, a pandas dataframe used
by the validator as an association list from column names to cell columns,
and fallible routines return `Except`.
-/

/-! ## Data model: one validated production record (§3 of the spec)

A `ProductionRecord` is one row of the validated input table.  The numeric
columns are exact rationals; `startOfOrder` has already been parsed and is
carried opaquely by the metric engine. -/

structure ProductionRecord where
  startOfOrder : String
  productionLine : String
  partNumber : String
  plannedProductionTime : ℚ
  actualProductionTime : ℚ
  idealCycleTime : ℚ
  totalPieces : ℚ
  goodPieces : ℚ
  plannedDowntime : ℚ
  unplannedDowntime : ℚ
deriving DecidableEq

/-- A production record augmented with the four derived metric columns, as
produced by `calculate_oee_metrics` (the output dataframe row).  The
`record` component carries the non-metric columns, including the
recomputed `plannedProductionTime`. -/
structure MetricRecord where
  record : ProductionRecord
  Availability : ℚ
  Performance : ℚ
  Quality : ℚ
  OEE : ℚ
deriving DecidableEq

/-- Models `pandas.Series.clip(0, 1)` on a single cell: values below 0 go
to 0, values above 1 go to 1. -/
def clip01 (x : ℚ) : ℚ := min 1 (max 0 x)

/-- Per-row computation of `calculate_oee_metrics`
(`src/utils/calculations.py`, lines 18-54), translated statement by
statement.  Line 19 overwrites `plannedProductionTime` with
`totalPieces * idealCycleTime` before any ratio is computed, so the
Availability formula on line 24 reads the recomputed value.  The
`np.where(cond, a, b)` guards become conditionals, and the final
`.clip(0, 1)` calls become `clip01`.  (The `pd.to_numeric` pass on lines
15-16 is the identity on validated numeric input, which the `ℚ`-typed
fields already guarantee.) -/
def computeRecord (r : ProductionRecord) : MetricRecord :=
  let r := { r with plannedProductionTime := r.totalPieces * r.idealCycleTime }
  let availability :=
    if 0 < r.actualProductionTime then
      (r.plannedProductionTime + r.plannedDowntime) / r.actualProductionTime
    else 0
  let performance :=
    if 0 < r.actualProductionTime then
      r.idealCycleTime * r.totalPieces / r.actualProductionTime
    else 0
  let quality :=
    if 0 < r.totalPieces then r.goodPieces / r.totalPieces else 0
  let oee := availability * performance * quality
  { record := r
    Availability := clip01 availability
    Performance := clip01 performance
    Quality := clip01 quality
    OEE := clip01 oee }

/-- `calculate_oee_metrics` on a whole dataframe: the per-row computation
is applied uniformly to every row (all pandas operations in the source are
element-wise), preserving row order.  The source copies the input frame on
line 10, so the input is not mutated; in the embedding the input list is
immutable by construction. -/
def calculate_oee_metrics (df : List ProductionRecord) : List MetricRecord :=
  df.map computeRecord

/-! ## Spec-side formulas (§3 and §4.2 of the spec)

These three definitions transcribe the specification's formulas, including
its division-by-zero policy ("if `actualProductionTime` is zero (or
non-positive), Availability and Performance are defined as 0"; "if
`totalPieces` is zero, Quality is 0") and the recomputed
`plannedProductionTime` in the Availability numerator.  They are compared
against the code path in the theorems below. -/

/-- Spec formula: `Availability = (plannedProductionTime + plannedDowntime)
/ actualProductionTime` with `plannedProductionTime` recomputed as
`totalPieces × idealCycleTime`, and 0 when `actualProductionTime` is zero
or non-positive. -/
def spec_availability (r : ProductionRecord) : ℚ :=
  if 0 < r.actualProductionTime then
    (r.totalPieces * r.idealCycleTime + r.plannedDowntime) / r.actualProductionTime
  else 0

/-- Spec formula: `Performance = (idealCycleTime × totalPieces) /
actualProductionTime`, and 0 when `actualProductionTime` is zero or
non-positive. -/
def spec_performance (r : ProductionRecord) : ℚ :=
  if 0 < r.actualProductionTime then
    r.idealCycleTime * r.totalPieces / r.actualProductionTime
  else 0

/-- Spec formula: `Quality = goodPieces / totalPieces`, and 0 when
`totalPieces` is zero (or not positive). -/
def spec_quality (r : ProductionRecord) : ℚ :=
  if 0 < r.totalPieces then r.goodPieces / r.totalPieces else 0

/-! ## Helper lemmas about clipping and the per-row computation -/

lemma clip01_nonneg (x : ℚ) : 0 ≤ clip01 x :=
  le_min (by norm_num) (le_max_left 0 x)

lemma clip01_le_one (x : ℚ) : clip01 x ≤ 1 := min_le_left 1 _

lemma clip01_of_mem (x : ℚ) (h0 : 0 ≤ x) (h1 : x ≤ 1) : clip01 x = x := by
  unfold clip01
  rw [max_eq_right h0, min_eq_right h1]

lemma clip01_of_one_lt (x : ℚ) (h : 1 < x) : clip01 x = 1 := by
  unfold clip01
  rw [max_eq_right (le_of_lt (lt_trans one_pos h)), min_eq_left (le_of_lt h)]

lemma clip01_of_neg (x : ℚ) (h : x < 0) : clip01 x = 0 := by
  unfold clip01
  rw [max_eq_left (le_of_lt h), min_eq_right (by norm_num)]

lemma computeRecord_Availability (r : ProductionRecord) :
    (computeRecord r).Availability = clip01 (spec_availability r) := rfl

lemma computeRecord_Performance (r : ProductionRecord) :
    (computeRecord r).Performance = clip01 (spec_performance r) := rfl

lemma computeRecord_Quality (r : ProductionRecord) :
    (computeRecord r).Quality = clip01 (spec_quality r) := rfl

lemma computeRecord_OEE (r : ProductionRecord) :
    (computeRecord r).OEE =
      clip01 (spec_availability r * spec_performance r * spec_quality r) := rfl

lemma computeRecord_ppt (r : ProductionRecord) :
    (computeRecord r).record.plannedProductionTime =
      r.totalPieces * r.idealCycleTime := rfl

/-! ## Claim theorems about the metric engine -/

/-- C1: for every record passed to the metric engine, the output's
`plannedProductionTime` equals `totalPieces × idealCycleTime` regardless
of the uploaded value (override), and each reported metric is the clamp of
exactly the spec's pre-clamp ratio: Availability uses the recomputed
planned time plus planned downtime over actual production time,
Performance is `idealCycleTime × totalPieces` over actual production time,
both 0 when actual production time is not positive, and Quality is
`goodPieces / totalPieces`, 0 when `totalPieces` is not positive. -/
theorem calculate_oee_metrics_formulas (r : ProductionRecord) :
    (computeRecord r).record.plannedProductionTime = r.totalPieces * r.idealCycleTime
    ∧ (computeRecord r).Availability = clip01 (spec_availability r)
    ∧ (computeRecord r).Performance = clip01 (spec_performance r)
    ∧ (computeRecord r).Quality = clip01 (spec_quality r)
    ∧ ∀ v : ℚ, computeRecord { r with plannedProductionTime := v } = computeRecord r :=
  ⟨rfl, rfl, rfl, rfl, fun _ => rfl⟩

/-- C2: every record output by `calculate_oee_metrics` has all four derived
metrics in the closed interval `[0, 1]`, and a pre-clamp value outside that
range is truncated at the violated bound rather than reported as an
error. -/
theorem calculate_oee_metrics_clamped :
    (∀ df : List ProductionRecord, ∀ m ∈ calculate_oee_metrics df,
      (0 ≤ m.Availability ∧ m.Availability ≤ 1)
      ∧ (0 ≤ m.Performance ∧ m.Performance ≤ 1)
      ∧ (0 ≤ m.Quality ∧ m.Quality ≤ 1)
      ∧ (0 ≤ m.OEE ∧ m.OEE ≤ 1))
    ∧ (∀ r : ProductionRecord,
      (1 < spec_availability r → (computeRecord r).Availability = 1)
      ∧ (spec_availability r < 0 → (computeRecord r).Availability = 0)
      ∧ (1 < spec_performance r → (computeRecord r).Performance = 1)
      ∧ (spec_performance r < 0 → (computeRecord r).Performance = 0)
      ∧ (1 < spec_quality r → (computeRecord r).Quality = 1)
      ∧ (spec_quality r < 0 → (computeRecord r).Quality = 0)
      ∧ (1 < spec_availability r * spec_performance r * spec_quality r →
          (computeRecord r).OEE = 1)) := by
  constructor
  · intro df m hm
    rcases List.mem_map.mp hm with ⟨r, _, rfl⟩
    exact ⟨⟨clip01_nonneg _, clip01_le_one _⟩, ⟨clip01_nonneg _, clip01_le_one _⟩,
      ⟨clip01_nonneg _, clip01_le_one _⟩, ⟨clip01_nonneg _, clip01_le_one _⟩⟩
  · intro r
    refine ⟨fun h => ?_, fun h => ?_, fun h => ?_, fun h => ?_,
      fun h => ?_, fun h => ?_, fun h => ?_⟩
    · rw [computeRecord_Availability]; exact clip01_of_one_lt _ h
    · rw [computeRecord_Availability]; exact clip01_of_neg _ h
    · rw [computeRecord_Performance]; exact clip01_of_one_lt _ h
    · rw [computeRecord_Performance]; exact clip01_of_neg _ h
    · rw [computeRecord_Quality]; exact clip01_of_one_lt _ h
    · rw [computeRecord_Quality]; exact clip01_of_neg _ h
    · rw [computeRecord_OEE]; exact clip01_of_one_lt _ h

/-- Record with Performance above 1 before clamping, used to witness the
truncation half of C2. -/
def clampExample : ProductionRecord :=
  { startOfOrder := "1/12/2025 14:12", productionLine := "L1", partNumber := "P1"
    plannedProductionTime := 0, actualProductionTime := 1, idealCycleTime := 2
    totalPieces := 1, goodPieces := 1, plannedDowntime := 0, unplannedDowntime := 0 }

/-- Witness for C2 at a concrete record whose raw Performance is 2. -/
theorem calculate_oee_metrics_clamped_witness :
    ((0 ≤ (computeRecord clampExample).Availability
        ∧ (computeRecord clampExample).Availability ≤ 1)
      ∧ (0 ≤ (computeRecord clampExample).Performance
        ∧ (computeRecord clampExample).Performance ≤ 1)
      ∧ (0 ≤ (computeRecord clampExample).Quality
        ∧ (computeRecord clampExample).Quality ≤ 1)
      ∧ (0 ≤ (computeRecord clampExample).OEE
        ∧ (computeRecord clampExample).OEE ≤ 1))
    ∧ (computeRecord clampExample).Performance = 1 := by
  refine ⟨calculate_oee_metrics_clamped.1 [clampExample] (computeRecord clampExample)
    (by simp [calculate_oee_metrics]), ?_⟩
  exact (calculate_oee_metrics_clamped.2 clampExample).2.2.1
    (by norm_num [spec_performance, clampExample])

/-- C6: when none of the three pre-clamp ratios needed clamping (each
already lies in `[0, 1]`), the output OEE equals the product of the three
reported metrics exactly. -/
theorem oee_composition_unclamped (r : ProductionRecord)
    (hA0 : 0 ≤ spec_availability r) (hA1 : spec_availability r ≤ 1)
    (hP0 : 0 ≤ spec_performance r) (hP1 : spec_performance r ≤ 1)
    (hQ0 : 0 ≤ spec_quality r) (hQ1 : spec_quality r ≤ 1) :
    (computeRecord r).OEE =
      (computeRecord r).Availability * (computeRecord r).Performance *
        (computeRecord r).Quality := by
  rw [computeRecord_OEE, computeRecord_Availability, computeRecord_Performance,
    computeRecord_Quality, clip01_of_mem _ hA0 hA1, clip01_of_mem _ hP0 hP1,
    clip01_of_mem _ hQ0 hQ1]
  refine clip01_of_mem _ ?_ ?_
  · exact mul_nonneg (mul_nonneg hA0 hP0) hQ0
  · have h1 : spec_availability r * spec_performance r ≤ 1 := by nlinarith
    have h2 : 0 ≤ spec_availability r * spec_performance r := mul_nonneg hA0 hP0
    nlinarith

/-- Record with all three raw ratios inside `[0, 1]`, used to witness C6. -/
def unclampedExample : ProductionRecord :=
  { startOfOrder := "1/12/2025 14:12", productionLine := "L1", partNumber := "P1"
    plannedProductionTime := 99, actualProductionTime := 2, idealCycleTime := 1
    totalPieces := 1, goodPieces := 1, plannedDowntime := 0, unplannedDowntime := 0 }

/-- Witness for C6 at a concrete record whose raw ratios are 1/2, 1/2, 1. -/
theorem oee_composition_unclamped_witness :
    (computeRecord unclampedExample).OEE =
      (computeRecord unclampedExample).Availability *
        (computeRecord unclampedExample).Performance *
        (computeRecord unclampedExample).Quality :=
  oee_composition_unclamped unclampedExample
    (by norm_num [spec_availability, unclampedExample])
    (by norm_num [spec_availability, unclampedExample])
    (by norm_num [spec_performance, unclampedExample])
    (by norm_num [spec_performance, unclampedExample])
    (by norm_num [spec_quality, unclampedExample])
    (by norm_num [spec_quality, unclampedExample])

/-- C7: the metric engine is deterministic — two invocations on equal
inputs produce equal outputs.  In this embedding `calculate_oee_metrics`
is a pure function of its argument alone (the source reads no state other
than the input frame, which it copies on line 10), so the result depends
on nothing but the input. -/
theorem calculate_oee_metrics_deterministic
    (df₁ df₂ : List ProductionRecord) (h : df₁ = df₂) :
    calculate_oee_metrics df₁ = calculate_oee_metrics df₂ := by rw [h]

/-- Witness for C7: two invocations on the same concrete record set. -/
theorem calculate_oee_metrics_deterministic_witness :
    calculate_oee_metrics
        [{ startOfOrder := "", productionLine := "L", partNumber := "P"
           plannedProductionTime := 1, actualProductionTime := 1, idealCycleTime := 1
           totalPieces := 1, goodPieces := 1, plannedDowntime := 0, unplannedDowntime := 0 }] =
      calculate_oee_metrics
        [{ startOfOrder := "", productionLine := "L", partNumber := "P"
           plannedProductionTime := 1, actualProductionTime := 1, idealCycleTime := 1
           totalPieces := 1, goodPieces := 1, plannedDowntime := 0, unplannedDowntime := 0 }] :=
  calculate_oee_metrics_deterministic _ _ rfl

/-- Projection of a record to every column other than
`plannedProductionTime` (and the four metric columns, which only exist on
the output): the one field the engine overwrites is reset to a fixed
value so that equality of projections states that all other fields are
untouched. -/
def eraseDerived (r : ProductionRecord) : ProductionRecord :=
  { r with plannedProductionTime := 0 }

/-- C8: the output of `calculate_oee_metrics` is the same sequence of rows
(same length, same order); every column other than `plannedProductionTime`
and the four added metric columns keeps its input value.  The input list
itself is immutable in this embedding, matching the source's copy-on-entry
(line 10). -/
theorem calculate_oee_metrics_frame (df : List ProductionRecord) :
    (calculate_oee_metrics df).length = df.length
    ∧ (calculate_oee_metrics df).map (fun m => eraseDerived m.record) =
        df.map eraseDerived := by
  constructor
  · simp [calculate_oee_metrics]
  · induction df with
    | nil => rfl
    | cons r rest ih => exact congrArg (List.cons (eraseDerived r)) ih

/-- Record with raw ratios 4, 4, 1/2, whose clamped product differs from
its reported OEE; used in C9. -/
def overshootExample : ProductionRecord :=
  { startOfOrder := "1/12/2025 14:12", productionLine := "L1", partNumber := "P1"
    plannedProductionTime := 0, actualProductionTime := 1, idealCycleTime := 1
    totalPieces := 4, goodPieces := 2, plannedDowntime := 0, unplannedDowntime := 0 }

/-- C9: the reported OEE is the product of the three pre-clamp ratios
clamped once to `[0, 1]`; consequently, when an individual ratio exceeded
1 before clamping, the reported OEE can differ from the product of the
three reported (clamped) metrics, as the concrete record
`overshootExample` shows. -/
theorem oee_single_clamp :
    (∀ r : ProductionRecord,
      (computeRecord r).OEE =
        min 1 (max 0 (spec_availability r * spec_performance r * spec_quality r)))
    ∧ (computeRecord overshootExample).OEE ≠
        (computeRecord overshootExample).Availability *
          (computeRecord overshootExample).Performance *
          (computeRecord overshootExample).Quality := by
  constructor
  · intro r; rfl
  · norm_num [computeRecord, clip01, overshootExample]

/-! ## Ingestion and validation layer (`src/utils/data_processing.py`)

A pandas dataframe is modelled as an association list from column names to
columns of cells.  A cell is a number, a missing value (NaN), or a raw
string; `pd.to_numeric(..., errors='coerce')` maps each cell to a number
or NaN.  `validate_dataframe` mutates the caller's frame in place, so the
embedding passes the frame state explicitly and returns the final state
alongside the outcome. -/

/-- One dataframe cell: a numeric value, a missing value (NaN/NaT-like),
or a raw string as read from the CSV. -/
inductive Value where
  | num (q : ℚ)
  | nan
  | str (s : String)
deriving DecidableEq

/-- Splits a character list at every occurrence of `sep` (helper for the
numeric and date parsers). -/
def splitOnChar (sep : Char) : List Char → List (List Char)
  | [] => [[]]
  | c :: cs =>
    let r := splitOnChar sep cs
    if c = sep then [] :: r
    else
      match r with
      | [] => [[c]]
      | g :: gs => (c :: g) :: gs

/-- Value of a decimal digit character. -/
def digitVal (c : Char) : Option Nat :=
  if c.isDigit then some (c.toNat - '0'.toNat) else none

/-- Accumulator loop reading a non-empty run of decimal digits. -/
def digitsToNatAux (acc : Nat) : List Char → Option Nat
  | [] => some acc
  | c :: cs =>
    match digitVal c with
    | some d => digitsToNatAux (acc * 10 + d) cs
    | none => none

/-- Reads a non-empty all-digit character list as a natural number. -/
def digitsToNat : List Char → Option Nat
  | [] => none
  | cs => digitsToNatAux 0 cs

/-- Unsigned decimal number: digits with an optional fractional part. -/
def parseUnsignedRat (cs : List Char) : Option ℚ :=
  match splitOnChar '.' cs with
  | [ip] => (digitsToNat ip).map (fun n => (n : ℚ))
  | [ip, fp] =>
    match digitsToNat ip, digitsToNat fp with
    | some i, some f => some ((i : ℚ) + (f : ℚ) / ((10 : ℚ) ^ fp.length))
    | _, _ => none
  | _ => none

/-- Numeric parsing of a string cell, as attempted by `pd.to_numeric`:
an optional leading minus sign, then an unsigned decimal number. -/
def parseRat (s : String) : Option ℚ :=
  match s.data with
  | '-' :: cs => (parseUnsignedRat cs).map (fun q => -q)
  | cs => parseUnsignedRat cs

/-- Models `pd.to_numeric(cell, errors='coerce')` on one cell: numbers and
missing values pass through, strings parse to a number or become NaN. -/
def to_numeric : Value → Value
  | .num q => .num q
  | .nan => .nan
  | .str s =>
    match parseRat s with
    | some q => .num q
    | none => .nan

/-- Models `pandas.isna` on one cell (strings and numbers are not NA). -/
def isna : Value → Bool
  | .nan => true
  | _ => false

/-- A dataframe: association list from column name to that column's cells,
in row order. -/
abbrev DataFrame := List (String × List Value)

/-- Column names of the frame (`df.columns`). -/
def colNames (df : DataFrame) : List String := df.map Prod.fst

/-- Looks up a column by name (`df[col]`). -/
def getCol : DataFrame → String → Option (List Value)
  | [], _ => none
  | (n, vs) :: rest, c => if n = c then some vs else getCol rest c

/-- Column assignment `df[col] = ws`: replaces the named column, appending
it when absent, as pandas does. -/
def setCol : DataFrame → String → List Value → DataFrame
  | [], c, ws => [(c, ws)]
  | (n, vs) :: rest, c, ws =>
    if n = c then (n, ws) :: rest else (n, vs) :: setCol rest c ws

/-- Error taxonomy of the validation layer; the source raises `Exception`
with a message carrying the same payload (the missing-column set, or the
offending column name). -/
inductive ValidationError where
  | missingColumns (cols : List String)
  | numericCoercion (col : String)
  | emptyField (col : String)
deriving DecidableEq

/-- The ten required columns (`validate_dataframe`, lines 60-65). -/
def required_columns : List String :=
  ["startOfOrder", "productionLine", "partNumber",
   "plannedProductionTime", "actualProductionTime",
   "idealCycleTime", "totalPieces", "goodPieces",
   "plannedDowntime", "unplannedDowntime"]

/-- The seven expected-numeric columns (lines 73-76). -/
def numeric_columns : List String :=
  ["plannedProductionTime", "actualProductionTime", "idealCycleTime",
   "totalPieces", "goodPieces", "plannedDowntime", "unplannedDowntime"]

/-- The two required string-identifier columns (line 84). -/
def string_columns : List String := ["productionLine", "partNumber"]

/-- One iteration of the numeric loop's assignment (line 79):
`df[col] = pd.to_numeric(df[col], errors='coerce')`, coercing the column
in place. -/
def coerce1 (df : DataFrame) (c : String) : DataFrame :=
  setCol df c (((getCol df c).getD []).map to_numeric)

/-- The frame after coercing the listed columns in order. -/
def coerceCols (df : DataFrame) (cols : List String) : DataFrame :=
  cols.foldl coerce1 df

/-- The numeric loop (lines 78-81): for each column, first coerce it in
place, then fail on the whole batch if the coerced column contains any
NaN.  The returned frame is the caller's frame at exit. -/
def validate_numeric : DataFrame → List String → Except ValidationError Bool × DataFrame
  | df, [] => (.ok true, df)
  | df, c :: rest =>
    let df' := coerce1 df c
    if ((getCol df' c).getD []).any isna then
      (.error (.numericCoercion c), df')
    else validate_numeric df' rest

/-- The string-identifier loop (lines 83-87): fail if a listed column has
a missing or empty-string cell. -/
def validate_strings (df : DataFrame) : List String → Except ValidationError Bool
  | [] => .ok true
  | c :: rest =>
    if ((getCol df c).getD []).any (fun v => isna v || v == .str "") then
      .error (.emptyField c)
    else validate_strings df rest

/-- `validate_dataframe` (lines 58-89): required-column check first (the
source takes a set difference; here the missing names are listed in
`required_columns` order), then the in-place numeric loop, then the
string-column check, returning `True` on success.  The second component
is the state of the caller's frame when the function returns or raises. -/
def validate_dataframe (df : DataFrame) : Except ValidationError Bool × DataFrame :=
  let missing := required_columns.filter (fun c => !(colNames df).contains c)
  if missing.isEmpty then
    match validate_numeric df numeric_columns with
    | (.error e, df') => (.error e, df')
    | (.ok _, df') => (validate_strings df' string_columns, df')
  else (.error (.missingColumns missing), df)

/-- A column contains a cell that numeric coercion turns into NaN (an
unparseable string or an already-missing value). -/
def hasBadCell (df : DataFrame) (c : String) : Bool :=
  ((getCol df c).getD []).any (fun v => isna (to_numeric v))

/-! ## Helper lemmas about the validation layer -/

lemma getCol_setCol_self (df : DataFrame) (c : String) (ws : List Value) :
    getCol (setCol df c ws) c = some ws := by
  induction df with
  | nil => simp [setCol, getCol]
  | cons p rest ih =>
    obtain ⟨n, vs⟩ := p
    by_cases h : n = c
    · simp [setCol, getCol, h]
    · simp [setCol, getCol, h, ih]

lemma getCol_setCol_ne (df : DataFrame) (c c' : String) (ws : List Value)
    (h : c' ≠ c) :
    getCol (setCol df c ws) c' = getCol df c' := by
  have hcc : ¬c = c' := fun hh => h hh.symm
  induction df with
  | nil => simp [setCol, getCol, hcc]
  | cons p rest ih =>
    obtain ⟨n, vs⟩ := p
    by_cases hn : n = c
    · subst hn
      simp [setCol, getCol, hcc]
    · simp [setCol, getCol, hn, ih]

lemma to_numeric_to_numeric (v : Value) :
    to_numeric (to_numeric v) = to_numeric v := by
  cases v with
  | num q => rfl
  | nan => rfl
  | str s => cases h : parseRat s <;> simp [to_numeric, h]

lemma coerced_check_eq (df : DataFrame) (c : String) :
    ((getCol (coerce1 df c) c).getD []).any isna = hasBadCell df c := by
  unfold coerce1 hasBadCell
  rw [getCol_setCol_self]
  simp only [Option.getD_some, List.any_map, Function.comp_def]

lemma hasBadCell_coerce1 (df : DataFrame) (c₀ c : String) :
    hasBadCell (coerce1 df c₀) c = hasBadCell df c := by
  by_cases h : c = c₀
  · subst h
    unfold hasBadCell coerce1
    rw [getCol_setCol_self]
    simp only [Option.getD_some, List.any_map, Function.comp_def,
      to_numeric_to_numeric]
  · unfold hasBadCell coerce1
    rw [getCol_setCol_ne _ _ _ _ h]

lemma validate_numeric_cons_bad (df : DataFrame) (c₀ : String)
    (rest : List String) (h : hasBadCell df c₀ = true) :
    validate_numeric df (c₀ :: rest) =
      (.error (.numericCoercion c₀), coerce1 df c₀) := by
  simp [validate_numeric, coerced_check_eq, h]

lemma validate_numeric_cons_good (df : DataFrame) (c₀ : String)
    (rest : List String) (h : hasBadCell df c₀ = false) :
    validate_numeric df (c₀ :: rest) = validate_numeric (coerce1 df c₀) rest := by
  simp [validate_numeric, coerced_check_eq, h]

lemma validate_dataframe_eq_of_no_missing (df : DataFrame)
    (h : required_columns.filter (fun c => !(colNames df).contains c) = []) :
    validate_dataframe df =
      (match validate_numeric df numeric_columns with
      | (.error e, df') => (.error e, df')
      | (.ok _, df') => (validate_strings df' string_columns, df')) := by
  simp only [validate_dataframe, h]
  rfl

lemma validate_dataframe_eq_of_missing (df : DataFrame)
    (h : required_columns.filter (fun c => !(colNames df).contains c) ≠ []) :
    validate_dataframe df =
      (.error (.missingColumns
        (required_columns.filter (fun c => !(colNames df).contains c))), df) := by
  have hfalse :
      (required_columns.filter (fun c => !(colNames df).contains c)).isEmpty = false := by
    cases hx : required_columns.filter (fun c => !(colNames df).contains c) with
    | nil => exact absurd hx h
    | cons a l => rfl
  simp only [validate_dataframe, hfalse]
  rfl

lemma validate_numeric_finds_bad :
    ∀ (cols : List String) (df : DataFrame),
      (∃ c ∈ cols, hasBadCell df c = true) →
      ∃ c ∈ cols, (validate_numeric df cols).1 = .error (.numericCoercion c)
        ∧ hasBadCell df c = true := by
  intro cols
  induction cols with
  | nil =>
    rintro df ⟨c, hc, -⟩
    exact absurd hc (List.not_mem_nil c)
  | cons c₀ rest ih =>
    rintro df ⟨c, hc, hbad⟩
    by_cases h0 : hasBadCell df c₀ = true
    · refine ⟨c₀, List.mem_cons_self c₀ rest, ?_, h0⟩
      rw [validate_numeric_cons_bad df c₀ rest h0]
    · have h0' : hasBadCell df c₀ = false := by
        cases hh : hasBadCell df c₀
        · rfl
        · exact absurd hh h0
      have hcrest : c ∈ rest := by
        rcases List.mem_cons.mp hc with rfl | hr
        · exact absurd hbad h0
        · exact hr
      obtain ⟨c', hc', herr, hbad'⟩ :=
        ih (coerce1 df c₀) ⟨c, hcrest, by rw [hasBadCell_coerce1]; exact hbad⟩
      refine ⟨c', List.mem_cons_of_mem c₀ hc', ?_, ?_⟩
      · rw [validate_numeric_cons_good df c₀ rest h0']
        exact herr
      · rwa [hasBadCell_coerce1] at hbad'

lemma validate_numeric_ok_state :
    ∀ (cols : List String) (df : DataFrame) (b : Bool),
      (validate_numeric df cols).1 = .ok b →
      (validate_numeric df cols).2 = coerceCols df cols := by
  intro cols
  induction cols with
  | nil => intro df b _; rfl
  | cons c₀ rest ih =>
    intro df b h
    by_cases h0 : hasBadCell df c₀ = true
    · rw [validate_numeric_cons_bad df c₀ rest h0] at h
      exact absurd h (by simp)
    · have h0' : hasBadCell df c₀ = false := by
        cases hh : hasBadCell df c₀
        · rfl
        · exact absurd hh h0
      rw [validate_numeric_cons_good df c₀ rest h0'] at h ⊢
      exact ih (coerce1 df c₀) b h

lemma validate_numeric_error_state :
    ∀ (cols : List String) (df : DataFrame) (c : String),
      (validate_numeric df cols).1 = .error (.numericCoercion c) →
      ∃ p rest, cols = p ++ c :: rest
        ∧ (validate_numeric df cols).2 = coerceCols df (p ++ [c]) := by
  intro cols
  induction cols with
  | nil =>
    intro df c h
    exact absurd h (by simp [validate_numeric])
  | cons c₀ rest ih =>
    intro df c h
    by_cases h0 : hasBadCell df c₀ = true
    · rw [validate_numeric_cons_bad df c₀ rest h0] at h
      have hc : c₀ = c := by simpa using h
      subst hc
      refine ⟨[], rest, rfl, ?_⟩
      rw [validate_numeric_cons_bad df c₀ rest h0]
      rfl
    · have h0' : hasBadCell df c₀ = false := by
        cases hh : hasBadCell df c₀
        · rfl
        · exact absurd hh h0
      rw [validate_numeric_cons_good df c₀ rest h0'] at h
      obtain ⟨p', r', hcols, hstate⟩ := ih (coerce1 df c₀) c h
      refine ⟨c₀ :: p', r', by rw [hcols]; rfl, ?_⟩
      rw [validate_numeric_cons_good df c₀ rest h0']
      exact hstate

lemma validate_numeric_error_shape :
    ∀ (cols : List String) (df : DataFrame) (e : ValidationError),
      (validate_numeric df cols).1 = .error e → ∃ c, e = .numericCoercion c := by
  intro cols
  induction cols with
  | nil =>
    intro df e h
    exact absurd h (by simp [validate_numeric])
  | cons c₀ rest ih =>
    intro df e h
    by_cases h0 : hasBadCell df c₀ = true
    · rw [validate_numeric_cons_bad df c₀ rest h0] at h
      exact ⟨c₀, by simpa using h.symm⟩
    · have h0' : hasBadCell df c₀ = false := by
        cases hh : hasBadCell df c₀
        · rfl
        · exact absurd hh h0
      rw [validate_numeric_cons_good df c₀ rest h0'] at h
      exact ih (coerce1 df c₀) e h

lemma validate_strings_error_shape :
    ∀ (cols : List String) (df : DataFrame) (e : ValidationError),
      validate_strings df cols = .error e → ∃ c, e = .emptyField c := by
  intro cols
  induction cols with
  | nil =>
    intro df e h
    exact absurd h (by simp [validate_strings])
  | cons c₀ rest ih =>
    intro df e h
    simp only [validate_strings] at h
    by_cases h0 :
        ((getCol df c₀).getD []).any (fun v => isna v || v == .str "") = true
    · rw [if_pos h0] at h
      exact ⟨c₀, by simpa using h.symm⟩
    · rw [if_neg h0] at h
      exact ih df e h

/-! ## Claim theorems about the validation layer -/

/-- C4: when one or more required columns are absent from the header,
`validate_dataframe` fails with an error listing exactly the missing
names (every absent required column appears in the list), and the
returned frame state equals the input — the required-column check happens
before any numeric coercion touches the frame. -/
theorem validate_dataframe_missing_columns (df : DataFrame)
    (h : required_columns.filter (fun c => !(colNames df).contains c) ≠ []) :
    validate_dataframe df =
      (.error (.missingColumns
        (required_columns.filter (fun c => !(colNames df).contains c))), df)
    ∧ ∀ c ∈ required_columns, c ∉ colNames df →
        c ∈ required_columns.filter (fun c => !(colNames df).contains c) := by
  refine ⟨validate_dataframe_eq_of_missing df h, ?_⟩
  intro c hc hnot
  refine List.mem_filter.mpr ⟨hc, ?_⟩
  simp [hnot]

/-- Frame whose header has every required column except `partNumber`. -/
def missingPartNumberFrame : DataFrame :=
  [("startOfOrder", []), ("productionLine", []),
   ("plannedProductionTime", []), ("actualProductionTime", []),
   ("idealCycleTime", []), ("totalPieces", []), ("goodPieces", []),
   ("plannedDowntime", []), ("unplannedDowntime", [])]

/-- Witness for C4: a frame missing only `partNumber` fails naming
`partNumber`, with the frame untouched. -/
theorem validate_dataframe_missing_columns_witness :
    validate_dataframe missingPartNumberFrame =
      (.error (.missingColumns ["partNumber"]), missingPartNumberFrame)
    ∧ "partNumber" ∈ required_columns.filter
        (fun c => !(colNames missingPartNumberFrame).contains c) := by
  have h := validate_dataframe_missing_columns missingPartNumberFrame (by decide)
  exact ⟨h.1, by decide⟩

/-- C5: on a frame with all required columns present, if any cell of any
expected-numeric column fails numeric coercion, `validate_dataframe`
fails for the whole batch with a `numericCoercion` error naming a numeric
column that indeed contains a non-coercible cell — a single fatal error,
not a per-row skip. -/
theorem validate_dataframe_numeric_fail_fast (df : DataFrame)
    (hcols : ∀ c ∈ required_columns, c ∈ colNames df)
    (hbad : ∃ c ∈ numeric_columns, hasBadCell df c = true) :
    ∃ c ∈ numeric_columns,
      (validate_dataframe df).1 = .error (.numericCoercion c)
        ∧ hasBadCell df c = true := by
  obtain ⟨c, hc, herr, hb⟩ := validate_numeric_finds_bad numeric_columns df hbad
  have hmiss :
      required_columns.filter (fun c => !(colNames df).contains c) = [] := by
    rw [List.filter_eq_nil_iff]
    intro a ha
    simp [hcols a ha]
  refine ⟨c, hc, ?_, hb⟩
  rw [validate_dataframe_eq_of_no_missing df hmiss]
  rcases hv : validate_numeric df numeric_columns with ⟨res, df'⟩
  rw [hv] at herr
  cases res with
  | error e =>
    have he : e = .numericCoercion c := by simpa using herr
    simp [he]
  | ok b => exact absurd herr (by simp)

/-- Frame with every required column present; its `plannedProductionTime`
cell is the coercible string "1" (so the coercion pass rewrites it) and
its `actualProductionTime` cell is the non-coercible string "abc". -/
def badNumericFrame : DataFrame :=
  [("startOfOrder", [.str "1/12/2025 14:12"]),
   ("productionLine", [.str "Line A"]),
   ("partNumber", [.str "PN-1"]),
   ("plannedProductionTime", [.str "1"]),
   ("actualProductionTime", [.str "abc"]),
   ("idealCycleTime", [.num 1]),
   ("totalPieces", [.num 1]),
   ("goodPieces", [.num 1]),
   ("plannedDowntime", [.num 0]),
   ("unplannedDowntime", [.num 0])]

/-- Witness for C5 at `badNumericFrame`. -/
theorem validate_dataframe_numeric_fail_fast_witness :
    ∃ c ∈ numeric_columns,
      (validate_dataframe badNumericFrame).1 = .error (.numericCoercion c)
        ∧ hasBadCell badNumericFrame c = true :=
  validate_dataframe_numeric_fail_fast badNumericFrame (by decide)
    ⟨"actualProductionTime", by decide, by decide⟩

/-- C10: `validate_dataframe` mutates the caller's frame before all checks
complete.  When it raises a `numericCoercion` error on column `c`, the
caller's frame is the input with every numeric column up to and including
`c` already coerced in place (each column is coerced before it is
tested); when it raises an `emptyField` error, all seven numeric columns
have already been coerced.  Validation errors are therefore not atomic
with respect to the input's state: a concrete frame exists whose state at
the raise differs from the input. -/
theorem validate_dataframe_mutates_in_place :
    (∀ (df : DataFrame) (c : String),
      (validate_dataframe df).1 = .error (.numericCoercion c) →
      ∃ p rest, numeric_columns = p ++ c :: rest
        ∧ (validate_dataframe df).2 = coerceCols df (p ++ [c]))
    ∧ (∀ (df : DataFrame) (c : String),
      (validate_dataframe df).1 = .error (.emptyField c) →
      (validate_dataframe df).2 = coerceCols df numeric_columns)
    ∧ ∃ df : DataFrame, (∃ e, (validate_dataframe df).1 = .error e)
        ∧ (validate_dataframe df).2 ≠ df := by
  refine ⟨?_, ?_, ?_⟩
  · intro df c h
    by_cases hm :
        required_columns.filter (fun c => !(colNames df).contains c) = []
    · rw [validate_dataframe_eq_of_no_missing df hm] at h ⊢
      rcases hv : validate_numeric df numeric_columns with ⟨res, df'⟩
      rw [hv] at h
      cases res with
      | error e =>
        have he : e = .numericCoercion c := by simpa using h
        subst he
        obtain ⟨p, r, hcols, hstate⟩ :=
          validate_numeric_error_state numeric_columns df c (by rw [hv])
        rw [hv] at hstate
        exact ⟨p, r, hcols, hstate⟩
      | ok b =>
        exfalso
        obtain ⟨c', hc'⟩ :=
          validate_strings_error_shape string_columns df'
            (.numericCoercion c) (by simpa using h)
        exact absurd hc' (by simp)
    · rw [validate_dataframe_eq_of_missing df hm] at h
      exact absurd h (by simp)
  · intro df c h
    by_cases hm :
        required_columns.filter (fun c => !(colNames df).contains c) = []
    · rw [validate_dataframe_eq_of_no_missing df hm] at h ⊢
      rcases hv : validate_numeric df numeric_columns with ⟨res, df'⟩
      rw [hv] at h
      cases res with
      | error e =>
        exfalso
        obtain ⟨c', hc'⟩ :=
          validate_numeric_error_shape numeric_columns df e (by rw [hv])
        subst hc'
        simp at h
      | ok b =>
        have := validate_numeric_ok_state numeric_columns df b (by rw [hv])
        rw [hv] at this
        exact this
    · rw [validate_dataframe_eq_of_missing df hm] at h
      exact absurd h (by simp)
  · refine ⟨badNumericFrame, ⟨.numericCoercion "actualProductionTime", rfl⟩, ?_⟩
    decide

/-- Witness for C10: at `badNumericFrame` the validator raises on
`actualProductionTime` with the first two numeric columns already coerced
in place. -/
theorem validate_dataframe_mutates_in_place_witness :
    ∃ p rest, numeric_columns = p ++ "actualProductionTime" :: rest
      ∧ (validate_dataframe badNumericFrame).2 =
          coerceCols badNumericFrame (p ++ ["actualProductionTime"]) :=
  validate_dataframe_mutates_in_place.1 badNumericFrame "actualProductionTime" rfl

/-! ## Date parsing in `process_uploaded_file` (lines 33-51)

The source first overwrites the `startOfOrder` column with
`pd.to_datetime(df['startOfOrder'], format='%m/%d/%Y %H:%M',
errors='coerce')` (line 39), which replaces every cell by a parsed
datetime or `NaT`.  The fallback on line 43 then calls the flexible
`pd.to_datetime` on that *already converted* column — re-parsing a
datetime/`NaT` column is the identity, so a value that failed the primary
format stays `NaT` — and line 46 raises when any `NaT` remains.

The embedding models a cell of the `startOfOrder` column as either the
original string or a converted datetime (`none` = `NaT`), and each
`pd.to_datetime` pass as a cell-wise conversion that is the identity on
already-converted cells. -/

/-- A parsed timestamp (to minute/second precision, as produced by the two
accepted textual formats). -/
structure DateTime where
  year : Nat
  month : Nat
  day : Nat
  hour : Nat
  minute : Nat
  second : Nat
deriving DecidableEq

/-- Numeric value of a run of decimal digits, `none` when empty or
non-digit (shared with the numeric parser). -/
def digitVal' : List Char → Option Nat := digitsToNat

/-- Parses the primary format `%m/%d/%Y %H:%M` (month/day/year
hour:minute, components not required to be zero-padded), with the field
range checks `strptime` performs. -/
def parse_primary (s : String) : Option DateTime :=
  match splitOnChar ' ' s.data with
  | [datePart, timePart] =>
    match splitOnChar '/' datePart, splitOnChar ':' timePart with
    | [ms, ds, ys], [hs, mins] =>
      match digitsToNat ms, digitsToNat ds, digitsToNat ys,
          digitsToNat hs, digitsToNat mins with
      | some m, some d, some y, some hh, some mi =>
        if 1 ≤ m ∧ m ≤ 12 ∧ 1 ≤ d ∧ d ≤ 31 ∧ hh ≤ 23 ∧ mi ≤ 59 then
          some ⟨y, m, d, hh, mi, 0⟩
        else none
      | _, _, _, _, _ => none
    | _, _ => none
  | _ => none

/-- Parses the ISO-like format `YYYY-MM-DD HH:MM:SS`. -/
def parse_iso (s : String) : Option DateTime :=
  match splitOnChar ' ' s.data with
  | [datePart, timePart] =>
    match splitOnChar '-' datePart, splitOnChar ':' timePart with
    | [ys, ms, ds], [hs, mins, secs] =>
      match digitsToNat ys, digitsToNat ms, digitsToNat ds,
          digitsToNat hs, digitsToNat mins, digitsToNat secs with
      | some y, some m, some d, some hh, some mi, some ss =>
        if 1 ≤ m ∧ m ≤ 12 ∧ 1 ≤ d ∧ d ≤ 31 ∧ hh ≤ 23 ∧ mi ≤ 59 ∧ ss ≤ 59 then
          some ⟨y, m, d, hh, mi, ss⟩
        else none
      | _, _, _, _, _, _ => none
    | _, _ => none
  | _ => none

/-- The flexible `pd.to_datetime` pass restricted to the two formats the
spec declares accepted: the primary format, otherwise the ISO-like
format. -/
def parse_flexible (s : String) : Option DateTime :=
  match parse_primary s with
  | some d => some d
  | none => parse_iso s

/-- One cell of the `startOfOrder` column: either the original string or
a cell already converted to a datetime (`none` standing for `NaT`). -/
inductive ColCell where
  | raw (s : String)
  | dt (d : Option DateTime)
deriving DecidableEq

/-- One `pd.to_datetime(..., errors='coerce')` pass on a cell, using the
given string parser: strings are parsed (unparseable ones become `NaT`),
already-converted datetime/`NaT` cells pass through unchanged. -/
def to_datetime_cell (parse : String → Option DateTime) : ColCell → Option DateTime
  | .raw s => parse s
  | .dt d => d

/-- Models `Series.isna()` on one cell: only a converted `NaT` is NA. -/
def isNACell : ColCell → Bool
  | .dt none => true
  | _ => false

/-- Datetime value of a cell after conversion. -/
def cellDatetime : ColCell → Option DateTime
  | .raw _ => none
  | .dt d => d

/-- The `startOfOrder` conversion step of `process_uploaded_file`
(`src/utils/data_processing.py`, lines 38-47), translated line by line:
the column is overwritten with the primary-format coercion (line 39); if
any cell is then NA, the column — in its already-overwritten state — is
re-converted with the flexible pass (lines 42-43); if any NA remains, the
parse error is raised (lines 46-47, whose message the surrounding
`except` blocks wrap further). -/
def convert_startOfOrder (col : List ColCell) : Except String (List (Option DateTime)) :=
  let col1 := col.map (fun cell => ColCell.dt (to_datetime_cell parse_primary cell))
  let col2 :=
    if col1.any isNACell then
      col1.map (fun cell => ColCell.dt (to_datetime_cell parse_flexible cell))
    else col1
  if col2.any isNACell then
    .error "Some dates could not be parsed. Please ensure dates are in format: MM/DD/YYYY HH:MM"
  else .ok (col2.map cellDatetime)

/-- C3 (refuted — code bug): the spec's two accepted formats do denote the
same instant (`parse_flexible` sends `"1/12/2025 14:12"` and
`"2025-01-12 14:12:00"` to the same `DateTime`), and a primary-format
column converts successfully; but because line 39 overwrites the column
before the fallback runs, the pipeline raises its date-parse error on a
column holding the ISO-like value even though that value is parseable
under the accepted format attempts. -/
theorem startOfOrder_iso_fallback_dead :
    parse_flexible "1/12/2025 14:12" = some ⟨2025, 1, 12, 14, 12, 0⟩
    ∧ parse_flexible "2025-01-12 14:12:00" = some ⟨2025, 1, 12, 14, 12, 0⟩
    ∧ convert_startOfOrder [.raw "1/12/2025 14:12"] =
        .ok [some ⟨2025, 1, 12, 14, 12, 0⟩]
    ∧ convert_startOfOrder [.raw "2025-01-12 14:12:00"] =
        .error "Some dates could not be parsed. Please ensure dates are in format: MM/DD/YYYY HH:MM"
    ∧ convert_startOfOrder [.raw "1/12/2025 14:12", .raw "2025-01-12 14:12:00"] =
        .error "Some dates could not be parsed. Please ensure dates are in format: MM/DD/YYYY HH:MM" :=
  ⟨rfl, rfl, rfl, rfl, rfl⟩

/-- Witness for C9: the single-clamp characterisation evaluated at the
concrete record `overshootExample`. -/
theorem oee_single_clamp_witness :
    (computeRecord overshootExample).OEE =
      min 1 (max 0 (spec_availability overshootExample *
        spec_performance overshootExample * spec_quality overshootExample)) :=
  oee_single_clamp.1 overshootExample
